import Mathlib

/-!
# Verification of the animateimage client-side auth & session core

Shallow embedding of the repository's authentication / session-resilience
subsystem (src/services/googleAuthService.ts — the current, memory-only-token
variant and, where a claim refers to it, the legacy variant that persists the
token; src/unnamed/part_012 — the user-id service; src/services/geminiService.ts
and src/App.tsx — mode resolution), together with theorems settling the
frozen claims about the natural-language specification.

Conventions of the embedding:
* Browser storage layers (localStorage cache, document cookie, IndexedDB) are
  association lists from string keys to stored values.
* JavaScript truthiness on nullable strings (`if (value)`) is modelled by
  `jsVal`, which maps both `null` and the empty string to `none`.
* Network effects are modelled by passing the server's response for each
  `fetch` as an explicit argument, and by recording every request the code
  issues in a `trace` list, so "makes exactly k calls to endpoint E" is a
  statement about the trace.
* `await` points of the single-threaded event loop split `authenticatedFetch`
  and `refreshToken` into atomic segments (`taskStart`, `taskDeliverFirst`,
  `taskDeliverRefresh`, `taskDeliverRetry`), so that interleavings of
  concurrent callers can be expressed faithfully.
-/

namespace AnimateImage

/-- JavaScript truthiness on a nullable string: `null` and `""` are falsy;
`jsVal` normalises a falsy value to `none`. Matches `if (value)` checks in
the source. -/
def jsVal : Option String → Option String
  | none => none
  | some s => if s = "" then none else some s

/-- A stored value in a browser storage layer.  The services store either a
raw string (device ids, tokens, expiry timestamps) or the
`JSON.stringify` of a user object; the latter is kept abstract as
`userJson` so that `JSON.parse` round-trips exactly. -/
inductive SVal where
  | str (s : String)
  | userJson (userId email : String) (name profilePicture : Option String)
      (credits : Int) (isNewUser : Bool)
  deriving DecidableEq, Repr

/-- The user object of `googleAuthService.ts` (`interface GoogleUser`). -/
structure GoogleUser where
  userId : String
  email : String
  name : Option String := none
  profilePicture : Option String := none
  credits : Int
  isNewUser : Bool
  deriving DecidableEq, Repr

/-- `JSON.stringify` of a `GoogleUser` (kept abstract as an `SVal`). -/
def stringifyUser (u : GoogleUser) : SVal :=
  .userJson u.userId u.email u.name u.profilePicture u.credits u.isNewUser

/-- `JSON.parse` of a stored value, expected to be a user object: parsing a
serialized user succeeds, parsing any other string fails (the source wraps
`JSON.parse` in try/catch returning `null`). -/
def parseUser : Option SVal → Option GoogleUser
  | some (.userJson uid em nm pp cr nu) =>
      some { userId := uid, email := em, name := nm, profilePicture := pp,
             credits := cr, isNewUser := nu }
  | some (.str _) => none
  | none => none

/-- JavaScript truthiness on a stored value: the empty string is falsy,
any other stored value (a non-empty string, or an object's JSON) is truthy. -/
def svTruthy : Option SVal → Option SVal
  | some (.str s) => if s = "" then none else some (.str s)
  | some v => some v
  | none => none

/-- Association-list lookup (`localStorage.getItem` / cookie read /
IndexedDB `get`): first binding for the key, `none` when absent. -/
def lookupA (l : List (String × SVal)) (k : String) : Option SVal :=
  match l.find? (fun p => p.1 = k) with
  | some p => some p.2
  | none => none

/-- Association-list insert (`setItem` / `setCookie` / IndexedDB `put`):
replaces any previous binding for the key. -/
def insertA (l : List (String × SVal)) (k : String) (v : SVal) :
    List (String × SVal) :=
  (k, v) :: l.filter (fun p => ¬ p.1 = k)

/-- Association-list delete (`removeItem` / `deleteCookie` / IndexedDB
`delete`): removes every binding for the key; a no-op when absent. -/
def eraseA (l : List (String × SVal)) (k : String) : List (String × SVal) :=
  l.filter (fun p => ¬ p.1 = k)

/-- The three browser storage layers used redundantly by the services:
fast in-process cache (`localStorage`), cookie, and the asynchronous
transactional store (IndexedDB). -/
structure Storage where
  cache : List (String × SVal)
  cookie : List (String × SVal)
  idb : List (String × SVal)
  deriving DecidableEq, Repr

/-- The empty storage state (fresh browser profile). -/
def Storage.empty : Storage := { cache := [], cookie := [], idb := [] }

/-- `saveToAllStorages` of the legacy `googleAuthService.ts` variant:
writes to localStorage, cookie, and IndexedDB. -/
def saveToAllStorages (st : Storage) (k : String) (v : SVal) : Storage :=
  { cache := insertA st.cache k v
    cookie := insertA st.cookie k v
    idb := insertA st.idb k v }

/-- `getFromStorages` of `googleAuthService.ts` (legacy variant, lines
211-234): consult localStorage first; on miss consult the cookie and
restore localStorage; on further miss consult IndexedDB and restore both
localStorage and the cookie; `null` when no layer holds a truthy value. -/
def getFromStorages (st : Storage) (key : String) : Option SVal × Storage :=
  match svTruthy (lookupA st.cache key) with
  | some v => (some v, st)
  | none =>
    match svTruthy (lookupA st.cookie key) with
    | some v => (some v, { st with cache := insertA st.cache key v })
    | none =>
      match svTruthy (lookupA st.idb key) with
      | some v =>
          (some v, { st with cache := insertA st.cache key v
                             cookie := insertA st.cookie key v })
      | none => (none, st)

/-- Modelled from the spec: `multiStorageService.ts` is imported by the
current `googleAuthService.ts` variant but is not under `src/`; §4.1 of the
spec specifies `set(key, value)` as "writes to the fast cache synchronously,
then best-effort writes to cookie and transactional store". -/
def multiSet (st : Storage) (k : String) (v : SVal) : Storage :=
  { cache := insertA st.cache k v
    cookie := insertA st.cookie k v
    idb := insertA st.idb k v }

/-- Modelled from the spec: `multiStorageService.ts` is not under `src/`;
§4.1 specifies `get(key)` as "checks fast cache first; on miss, checks
cookie and repairs the cache; on further miss, checks the transactional
store and repairs both higher layers. Returns null only if absent
everywhere." -/
def multiGet (st : Storage) (key : String) : Option SVal × Storage :=
  match svTruthy (lookupA st.cache key) with
  | some v => (some v, st)
  | none =>
    match svTruthy (lookupA st.cookie key) with
    | some v => (some v, { st with cache := insertA st.cache key v })
    | none =>
      match svTruthy (lookupA st.idb key) with
      | some v =>
          (some v, { st with cache := insertA st.cache key v
                             cookie := insertA st.cookie key v })
      | none => (none, st)

/-- Modelled from the spec: `multiStorageService.ts` is not under `src/`;
§4.1 specifies `getSync(key)` as a synchronous variant that "consults only
the fast cache and cookie (the transactional store is inherently
asynchronous and is skipped)". -/
def multiGetSync (st : Storage) (key : String) : Option SVal :=
  match svTruthy (lookupA st.cache key) with
  | some v => some v
  | none => svTruthy (lookupA st.cookie key)

/-- Modelled from the spec: `multiStorageService.ts` is not under `src/`;
§4.1 specifies `remove(key)` as "deletes from all three layers; must not
fail if a layer never had the key". -/
def multiRemove (st : Storage) (k : String) : Storage :=
  { cache := eraseA st.cache k
    cookie := eraseA st.cookie k
    idb := eraseA st.idb k }

-- Basic association-list lemmas shared by several claims.

theorem lookupA_insertA_self (l : List (String × SVal)) (k : String) (v : SVal) :
    lookupA (insertA l k v) k = some v := by
  simp [lookupA, insertA, List.find?]

theorem lookupA_eraseA_self (l : List (String × SVal)) (k : String) :
    lookupA (eraseA l k) k = none := by
  induction l with
  | nil => simp [lookupA, eraseA]
  | cons p t ih =>
      by_cases h : p.1 = k
      · simpa [eraseA, h] using ih
      · simpa [eraseA, lookupA, List.find?, h] using ih

theorem lookupA_nil (k : String) : lookupA [] k = none := rfl

/-! ## The current googleAuthService (memory-only token variant) -/

/-- A network request issued by the service, recorded in order of issue.
`apiRequest` carries the url and the `Authorization: Bearer` token that was
attached (`none` when no token was present). -/
inductive NetCall where
  | authGoogle
  | authRefresh
  | authMe
  | authLogout
  | apiRequest (url : String) (bearer : Option String)
  deriving DecidableEq, Repr

/-- Number of calls to `/auth/refresh` in a trace. -/
def countRefresh (tr : List NetCall) : Nat :=
  tr.countP (fun c => c matches NetCall.authRefresh)

/-- Number of calls to `/auth/me` in a trace. -/
def countMe (tr : List NetCall) : Nat :=
  tr.countP (fun c => c matches NetCall.authMe)

/-- Module state of the current `googleAuthService.ts` variant:
`accessToken` is the module-level in-memory token (line 776), `storage` the
three browser layers behind `multiStorageService`, `notifications` the
arguments of `notifyAuthStateChange` calls in order, `trace` the network
requests issued, and `storagePref` the configured `CONFIG.storagePrefix`. -/
structure AuthState where
  accessToken : Option String
  storage : Storage
  notifications : List (Option GoogleUser)
  trace : List NetCall
  storagePref : String
  deriving DecidableEq, Repr

/-- `getStorageKeys().user` — the single persisted session key. -/
def AuthState.userKey (st : AuthState) : String := st.storagePref ++ "_user"

/-- A fresh page load with completely empty storage. -/
def AuthState.empty (pref : String) : AuthState :=
  { accessToken := none, storage := Storage.empty, notifications := []
    trace := [], storagePref := pref }

/-- A full page reload: the module-level in-memory token is reinitialised to
`null`; browser storage survives; subscriber/trace history restarts. -/
def pageReload (st : AuthState) : AuthState :=
  { st with accessToken := none, notifications := [], trace := [] }

/-- `getAccessToken()` — synchronous read of the in-memory token. -/
def getAccessToken (st : AuthState) : Option String := st.accessToken

/-- `getCurrentUserSync()` — `multiGetSync` of the user key followed by
`JSON.parse` (parse failure caught, yielding `null`). -/
def getCurrentUserSync (st : AuthState) : Option GoogleUser :=
  parseUser (multiGetSync st.storage st.userKey)

/-- `getCurrentUser()` — async `multiGet` of the user key (with its repair
side effect on the storage layers) followed by `JSON.parse`. -/
def getCurrentUser (st : AuthState) : Option GoogleUser × AuthState :=
  match multiGet st.storage st.userKey with
  | (v, stor) => (parseUser v, { st with storage := stor })

/-- `isAuthenticated()` — `!!(token && user)` over the in-memory token and
the synchronously readable user object. -/
def isAuthenticated (st : AuthState) : Bool :=
  (jsVal st.accessToken).isSome && (getCurrentUserSync st).isSome

/-- `signOut()` (current variant, lines 979-1025): reads the user and token,
clears the in-memory token, removes the user key from all three storage
layers via `multiRemove`, best-effort revokes the Google session, issues a
best-effort `/auth/logout` call when a token was held, notifies subscribers
with `null`, and re-initialises the sign-in SDK (no server call). -/
def signOut (st : AuthState) : AuthState :=
  let token := st.accessToken
  let st1 : AuthState :=
    { st with accessToken := none
              storage := multiRemove st.storage st.userKey }
  let st2 : AuthState :=
    match jsVal token with
    | some _ => { st1 with trace := st1.trace ++ [NetCall.authLogout] }
    | none => st1
  { st2 with notifications := st2.notifications ++ [none] }

/-- Outcome of the `fetch` to `/auth/refresh`: either the promise rejects
(network error) or a response arrives with an `ok` flag (2xx) and a parsed
JSON body `{success, access_token}`. -/
inductive RefreshOutcome where
  | netError
  | resp (ok : Bool) (success : Bool) (access_token : Option String)
  deriving DecidableEq, Repr

/-- The part of `refreshToken()` (current variant, lines 1074-1103) after
its `fetch` has been issued: a non-2xx response signs out and yields
`false`; a 2xx body with truthy `success && access_token` installs the new
token in memory and yields `true`; any other 2xx body yields `false` with
no further effect; a rejected fetch is caught, logged, and yields `false`
with no sign-out. -/
def refreshRest (r : RefreshOutcome) (st : AuthState) : Bool × AuthState :=
  match r with
  | .netError => (false, st)
  | .resp ok success tok =>
    if ok then
      match jsVal tok with
      | some t => if success then (true, { st with accessToken := some t })
                  else (false, st)
      | none => (false, st)
    else (false, signOut st)

/-- `refreshToken()` — issues the `/auth/refresh` request (HttpOnly refresh
cookie attached by the browser via `credentials: include`) and then behaves
as `refreshRest` on the outcome. -/
def refreshToken (r : RefreshOutcome) (st : AuthState) : Bool × AuthState :=
  refreshRest r { st with trace := st.trace ++ [NetCall.authRefresh] }

/-- `updateUserCredits(newCredits)` (lines 837-850): no-op when no user is
synchronously readable; otherwise writes the user copy with the new credit
balance through `multiSet` and notifies subscribers with it. -/
def updateUserCredits (newCredits : Int) (st : AuthState) : AuthState :=
  match getCurrentUserSync st with
  | none => st
  | some u =>
      let u2 : GoogleUser := { u with credits := newCredits }
      { st with storage := multiSet st.storage st.userKey (stringifyUser u2)
                notifications := st.notifications ++ [some u2] }

/-- Parsed body of a 2xx `/auth/me` response (`interface UserInfoResponse`). -/
structure UserInfoResponse where
  user_id : String
  email : String
  name : Option String := none
  credits : Int
  profile_picture : Option String := none
  deriving DecidableEq, Repr

/-- Outcome of the `fetch` to `/auth/me`: rejection, or a response with a
status code and (for 2xx) a JSON body; `body = none` models a body that
fails to parse (the catch returns `null`). -/
inductive MeOutcome where
  | netError
  | resp (status : Nat) (body : Option UserInfoResponse)
  deriving DecidableEq, Repr

/-- `fetchUserInfo()` (lines 1108-1147): returns `null` without a request
when no token is in memory; issues `/auth/me` with the bearer token; on 401
signs out and returns `null`; on any other non-2xx returns `null`; on 2xx
builds the user (with `isNewUser := false`), writes it through `multiSet`,
notifies subscribers, and returns it. -/
def fetchUserInfo (m : MeOutcome) (st : AuthState) : Option GoogleUser × AuthState :=
  match jsVal st.accessToken with
  | none => (none, st)
  | some _ =>
    let st := { st with trace := st.trace ++ [NetCall.authMe] }
    match m with
    | .netError => (none, st)
    | .resp status body =>
      if 200 ≤ status ∧ status < 300 then
        match body with
        | none => (none, st)
        | some d =>
          let user : GoogleUser :=
            { userId := d.user_id, email := d.email, name := d.name
              profilePicture := d.profile_picture, credits := d.credits
              isNewUser := false }
          (some user,
           { st with storage := multiSet st.storage st.userKey (stringifyUser user)
                     notifications := st.notifications ++ [some user] })
      else if status = 401 then (none, signOut st)
      else (none, st)

/-- Parsed body of a 2xx `/auth/google` response (`interface AuthApiResponse`). -/
structure AuthApiResponse where
  success : Bool
  access_token : String
  user_id : String
  email : String
  name : Option String := none
  credits : Int
  is_new_user : Bool
  deriving DecidableEq, Repr

/-- Outcome of the sign-in exchange `authenticateWithServer`: a non-2xx
response or rejected fetch makes it throw (caught by the credential
handler); a 2xx response yields the parsed body. -/
inductive SignInOutcome where
  | failure
  | success (r : AuthApiResponse)
  deriving DecidableEq, Repr

/-- `handleGoogleCredentialResponse` (current variant, lines 889-913):
exchanges the Google credential at `/auth/google`; on a thrown failure
notifies subscribers with `null`; on a 2xx body with `success` it stores
the access token in memory only, writes the built user through `multiSet`,
and notifies subscribers; a 2xx body without `success` does nothing. -/
def handleGoogleCredentialResponse (o : SignInOutcome) (st : AuthState) : AuthState :=
  let st := { st with trace := st.trace ++ [NetCall.authGoogle] }
  match o with
  | .failure => { st with notifications := st.notifications ++ [none] }
  | .success r =>
    if r.success then
      let user : GoogleUser :=
        { userId := r.user_id, email := r.email, name := r.name
          profilePicture := none, credits := r.credits
          isNewUser := r.is_new_user }
      { st with accessToken := some r.access_token
                storage := multiSet st.storage st.userKey (stringifyUser user)
                notifications := st.notifications ++ [some user] }
    else st

/-- Steps 2-3 of `initializeAuth()` (current variant, lines 1162-1191):
when no user was ever persisted, only initialise the sign-in SDK (no
server call) and return `null`; otherwise attempt `refreshToken()` from
the HttpOnly cookie and, on success, fetch fresh user info. -/
def initAuthRestore (r : RefreshOutcome) (m2 : MeOutcome) (st : AuthState) :
    Option GoogleUser × AuthState :=
  match getCurrentUserSync st with
  | none => (none, st)
  | some _ =>
    match refreshToken r st with
    | (true, st) =>
      match fetchUserInfo m2 st with
      | (some u, st) => (some u, st)
      | (none, st) => (none, st)
    | (false, st) => (none, st)

/-- `initializeAuth()` (current variant, lines 1153-1192): when a token is
already in memory, verify it via `fetchUserInfo` and return the fresh user
on success; otherwise run the restore sequence `initAuthRestore`.  The
outcomes of the up to two `/auth/me` calls and the `/auth/refresh` call
are passed as `m1`, `r`, `m2`. -/
def initAuth (m1 : MeOutcome) (r : RefreshOutcome) (m2 : MeOutcome)
    (st : AuthState) : Option GoogleUser × AuthState :=
  let step1 : Option GoogleUser × AuthState :=
    match jsVal st.accessToken with
    | some _ => fetchUserInfo m1 st
    | none => (none, st)
  match step1 with
  | (some u, st) => (some u, st)
  | (none, st) => initAuthRestore r m2 st

/-! ## `authenticatedFetch`, segmented at its `await` points

`authenticatedFetch` (current variant, lines 1197-1227) suspends at the
first `fetch`, inside `refreshToken` at the `/auth/refresh` fetch, and at
the retry `fetch`.  Each synchronous segment between suspensions is one
`task...` function below; concurrent callers interleave these atomic
segments on the shared `AuthState`. -/

/-- Continuation state of one in-flight `authenticatedFetch` call. -/
inductive TaskPhase where
  | awaitingFirst (url : String) (token : Option String)
  | awaitingRefresh (url : String) (token : Option String) (orig : Nat × String)
  | awaitingRetry (url : String)
  | doneOk (resp : Nat × String)
  | doneErr
  deriving DecidableEq, Repr

/-- Outcome of an `await fetch` on the caller's own request: rejection or a
response given as (status, abstract body). -/
inductive FetchOutcome where
  | netError
  | resp (status : Nat) (body : String)
  deriving DecidableEq, Repr

/-- First segment of `authenticatedFetch` (entry to the first `await
fetch`): reads the in-memory token, attaches it as a bearer header when
truthy, and issues the request. -/
def taskStart (url : String) (st : AuthState) : TaskPhase × AuthState :=
  let token := jsVal st.accessToken
  (TaskPhase.awaitingFirst url token,
   { st with trace := st.trace ++ [NetCall.apiRequest url token] })

/-- Segment run when the first fetch settles: a rejection propagates as an
exception; a 401 response while a token was attached enters
`refreshToken()`, whose synchronous prefix immediately issues the
`/auth/refresh` request (there is no single-flight guard in the source);
any other response is returned. -/
def taskDeliverFirst (o : FetchOutcome) (ph : TaskPhase) (st : AuthState) :
    TaskPhase × AuthState :=
  match ph, o with
  | TaskPhase.awaitingFirst _ _, FetchOutcome.netError => (TaskPhase.doneErr, st)
  | TaskPhase.awaitingFirst url token, FetchOutcome.resp status body =>
    if status = 401 ∧ token.isSome then
      (TaskPhase.awaitingRefresh url token (status, body),
       { st with trace := st.trace ++ [NetCall.authRefresh] })
    else (TaskPhase.doneOk (status, body), st)
  | other, _ => (other, st)

/-- Segment run when this caller's `/auth/refresh` fetch settles: the rest
of `refreshToken()` (`refreshRest`), then the continuation of
`authenticatedFetch`: on a successful refresh the retry request is issued
with the freshly read token; on a failed refresh `signOut()` runs and the
original 401 response becomes the result. -/
def taskDeliverRefresh (r : RefreshOutcome) (ph : TaskPhase) (st : AuthState) :
    TaskPhase × AuthState :=
  match ph with
  | TaskPhase.awaitingRefresh url _ orig =>
    match refreshRest r st with
    | (true, st) =>
        let newToken := jsVal st.accessToken
        (TaskPhase.awaitingRetry url,
         { st with trace := st.trace ++ [NetCall.apiRequest url newToken] })
    | (false, st) => (TaskPhase.doneOk orig, signOut st)
  | other => (other, st)

/-- Segment run when the retry fetch settles: its response is returned. -/
def taskDeliverRetry (o : FetchOutcome) (ph : TaskPhase) (st : AuthState) :
    TaskPhase × AuthState :=
  match ph, o with
  | TaskPhase.awaitingRetry _, FetchOutcome.netError => (TaskPhase.doneErr, st)
  | TaskPhase.awaitingRetry _, FetchOutcome.resp status body =>
      (TaskPhase.doneOk (status, body), st)
  | other, _ => (other, st)

/-- A single (non-interleaved) run of `authenticatedFetch(url, options)`:
the sequential composition of its segments, with the outcome of each
network round trip passed explicitly (`r1` first request, `r` refresh,
`r2` retry). -/
def authenticatedFetch (url : String) (r1 : FetchOutcome) (r : RefreshOutcome)
    (r2 : FetchOutcome) (st : AuthState) : TaskPhase × AuthState :=
  let s1 := taskStart url st
  let s2 := taskDeliverFirst r1 s1.1 s1.2
  match s2.1 with
  | TaskPhase.awaitingRefresh u tk orig =>
    let s3 := taskDeliverRefresh r (TaskPhase.awaitingRefresh u tk orig) s2.2
    match s3.1 with
    | TaskPhase.awaitingRetry u2 => taskDeliverRetry r2 (TaskPhase.awaitingRetry u2) s3.2
    | other => (other, s3.2)
  | other => (other, s2.2)

/-- Start `n` concurrent `authenticatedFetch` calls against the same url
(each runs its first synchronous segment before any response arrives). -/
def startTasks (n : Nat) (url : String) (st : AuthState) :
    List TaskPhase × AuthState :=
  match n with
  | 0 => ([], st)
  | Nat.succ m =>
    let s1 := taskStart url st
    let rest := startTasks m url s1.2
    (s1.1 :: rest.1, rest.2)

/-- Deliver the same first-fetch response to every started task, in order
(the event loop resumes each caller; each resumption is atomic). -/
def deliverFirstAll (o : FetchOutcome) (phs : List TaskPhase) (st : AuthState) :
    List TaskPhase × AuthState :=
  match phs with
  | [] => ([], st)
  | ph :: rest =>
    let s1 := taskDeliverFirst o ph st
    let s2 := deliverFirstAll o rest s1.2
    (s1.1 :: s2.1, s2.2)

/-! ## Legacy googleAuthService variant (token persisted to storage)

The repository also contains the earlier variant of
`googleAuthService.ts` (lines 1-684 of the concatenated source), whose
storage keys include `_access_token` and `_token_expiry` and whose
credential handler and `refreshToken` write the bearer token through
`saveToAllStorages`. -/

/-- Legacy `handleGoogleCredentialResponse` (lines 351-377), storage part:
on a 2xx exchange with `success`, writes the access token, the serialized
user, and the expiry timestamp to all three storage layers.  `now` is
`Date.now()` in milliseconds. -/
def handleGoogleCredentialResponseV1 (o : SignInOutcome) (now : Nat)
    (pref : String) (st : Storage) : Storage :=
  match o with
  | .failure => st
  | .success r =>
    if r.success then
      let user : GoogleUser :=
        { userId := r.user_id, email := r.email, name := r.name
          profilePicture := none, credits := r.credits
          isNewUser := r.is_new_user }
      let st := saveToAllStorages st (pref ++ "_access_token") (SVal.str r.access_token)
      let st := saveToAllStorages st (pref ++ "_user") (stringifyUser user)
      saveToAllStorages st (pref ++ "_token_expiry")
        (SVal.str (toString (now + 24 * 60 * 60 * 1000)))
    else st

/-! ## User ID service (src/unnamed/part_012) -/

/-- State of the user-id service: the module-level `cachedUserId`, the
IndexedDB value at key `user_id`, and the `animateimage_userid` cookie. -/
structure UserIdState where
  cachedUserId : Option String
  idb : Option String
  cookie : Option String
  deriving DecidableEq, Repr

/-- The 62-character alphabet of `generateUserId`. -/
def userIdChars : List Char :=
  "ABCDEFGHIJKLMNOPQRSTUVWXYZabcdefghijklmnopqrstuvwxyz0123456789".toList

/-- `generateUserId()` (part_012 lines 10-19): 20 characters, each chosen
as `chars[byte % 62]` from a CSPRNG byte; the randomness is passed in as
the byte function. -/
def generateUserId (bytes : Fin 20 → Nat) : String :=
  String.mk ((List.finRange 20).map (fun i => userIdChars.getD (bytes i % 62) 'A'))

/-- `getOrCreateUserId()` (part_012 lines 97-125): return the cached id if
truthy; else read IndexedDB (`"" → null` via `|| null`); on miss read the
cookie and, if truthy, restore it to IndexedDB; if still absent generate a
fresh id and persist it to IndexedDB and the cookie, else re-set the
cookie; finally cache and return the id. -/
def getOrCreateUserId (bytes : Fin 20 → Nat) (st : UserIdState) :
    String × UserIdState :=
  match jsVal st.cachedUserId with
  | some c => (c, st)
  | none =>
    let found : Option String × UserIdState :=
      match jsVal st.idb with
      | some v => (some v, st)
      | none =>
        match jsVal st.cookie with
        | some v => (some v, { st with idb := some v })
        | none => (none, st)
    match found with
    | (some uid, st) =>
        (uid, { st with cookie := some uid, cachedUserId := some uid })
    | (none, st) =>
        let uid := generateUserId bytes
        (uid, { st with idb := some uid, cookie := some uid,
                        cachedUserId := some uid })

/-- A full page reload for the user-id service: the module-level cache is
lost, IndexedDB and the cookie survive. -/
def UserIdState.reload (st : UserIdState) : UserIdState :=
  { st with cachedUserId := none }

/-! ## Mode resolution (src/services/geminiService.ts and src/App.tsx) -/

/-- The option record handed to the gemini service calls (fields relevant
to mode selection). -/
structure GeminiOptions where
  apiKey : Option String := none
  useCredits : Bool := false
  deriving DecidableEq, Repr

/-- `isClientMode(options)` (geminiService.ts lines 346-349):
"API key takes priority - if provided, ALWAYS use client mode". -/
def isClientMode (o : GeminiOptions) : Bool :=
  (jsVal o.apiKey).isSome

/-- What `handleGenerateClick` dispatches. -/
inductive GenerateAction where
  | noAction
  | clientMode (key : String)
  | creditsMode
  | showModal
  deriving DecidableEq, Repr

/-- `handleGenerateClick` (App.tsx lines 795-813): nothing without an
image; with a non-empty stored API key, client-side generation with that
key; else with a signed-in user, server-side credits generation; else the
API-key modal is shown. -/
def handleGenerateClick (selectedImage : Option String) (apiKey : String)
    (user : Option GoogleUser) : GenerateAction :=
  match jsVal selectedImage with
  | none => GenerateAction.noAction
  | some _ =>
    if apiKey = "" then
      if user.isSome then GenerateAction.creditsMode else GenerateAction.showModal
    else GenerateAction.clientMode apiKey

/-! ## Helper lemmas and concrete states used by the theorems -/

theorem jsVal_some (s : String) (h : ¬ s = "") : jsVal (some s) = some s := by
  simp [jsVal, h]

theorem jsVal_eq_some {o : Option String} {v : String} (h : jsVal o = some v) :
    o = some v ∧ ¬ v = "" := by
  cases o with
  | none => simp [jsVal] at h
  | some s =>
    by_cases hs : s = ""
    · simp [jsVal, hs] at h
    · simp [jsVal, hs] at h
      subst h
      exact ⟨rfl, hs⟩

theorem signOut_fields (st : AuthState) :
    (signOut st).accessToken = none ∧
    (signOut st).storage = multiRemove st.storage st.userKey ∧
    (signOut st).storagePref = st.storagePref ∧
    (signOut st).notifications = st.notifications ++ [none] := by
  unfold signOut
  cases h : jsVal st.accessToken <;> simp [h]

theorem multiGet_absent (s : Storage) (k : String)
    (h1 : lookupA s.cache k = none) (h2 : lookupA s.cookie k = none)
    (h3 : lookupA s.idb k = none) : multiGet s k = (none, s) := by
  simp [multiGet, h1, h2, h3, svTruthy]

/-- A concrete signed-in user. -/
def uEx : GoogleUser :=
  { userId := "user-1", email := "user@example.com", credits := 10, isNewUser := false }

/-- A concrete storage state holding uEx's session in all three layers. -/
def sessionStorageEx : Storage :=
  { cache := [("auth_user", stringifyUser uEx)]
    cookie := [("auth_user", stringifyUser uEx)]
    idb := [("auth_user", stringifyUser uEx)] }

/-- A concrete signed-in auth state: token in memory, session persisted. -/
def stEx : AuthState :=
  { accessToken := some "tok0", storage := sessionStorageEx
    notifications := [], trace := [], storagePref := "auth" }

/-! ## C5 — sign-out clears everything -/

/-- C5: after `signOut()` completes, `getAccessToken()` returns null, the
session read (`getCurrentUser` as well as the synchronous read) returns
null, and none of the three storage layers (localStorage cache, cookie,
IndexedDB) still contains the session key. -/
theorem signOut_clears_everything (st : AuthState) :
    getAccessToken (signOut st) = none ∧
    (getCurrentUser (signOut st)).1 = none ∧
    getCurrentUserSync (signOut st) = none ∧
    lookupA (signOut st).storage.cache ((signOut st).userKey) = none ∧
    lookupA (signOut st).storage.cookie ((signOut st).userKey) = none ∧
    lookupA (signOut st).storage.idb ((signOut st).userKey) = none := by
  obtain ⟨hTok, hStor, hPref, _⟩ := signOut_fields st
  have hk : (signOut st).userKey = st.userKey := by
    simp [AuthState.userKey, hPref]
  have hcache : lookupA (signOut st).storage.cache ((signOut st).userKey) = none := by
    rw [hk, hStor]
    exact lookupA_eraseA_self _ _
  have hcookie : lookupA (signOut st).storage.cookie ((signOut st).userKey) = none := by
    rw [hk, hStor]
    exact lookupA_eraseA_self _ _
  have hidb : lookupA (signOut st).storage.idb ((signOut st).userKey) = none := by
    rw [hk, hStor]
    exact lookupA_eraseA_self _ _
  have hget : multiGet (signOut st).storage ((signOut st).userKey) = (none, (signOut st).storage) :=
    multiGet_absent _ _ hcache hcookie hidb
  refine ⟨hTok, ?_, ?_, hcache, hcookie, hidb⟩
  · simp [getCurrentUser, hget, parseUser]
  · simp [getCurrentUserSync, multiGetSync, hcache, hcookie, svTruthy, parseUser]

/-! ## C9 — bootstrap without prior session -/

/-- C9: `initializeAuth()` on a completely empty storage state (no token in
memory, no persisted user in any layer) returns `null`, leaves the state
unchanged, and issues no call to `/auth/refresh` or `/auth/me` — it only
initialises the sign-in SDK for future sign-ins (which is not a server
call). -/
theorem initAuth_empty_no_network (m1 : MeOutcome) (r : RefreshOutcome)
    (m2 : MeOutcome) (pref : String) :
    initAuth m1 r m2 (AuthState.empty pref) = (none, AuthState.empty pref) ∧
    countRefresh (initAuth m1 r m2 (AuthState.empty pref)).2.trace = 0 ∧
    countMe (initAuth m1 r m2 (AuthState.empty pref)).2.trace = 0 :=
  ⟨rfl, rfl, rfl⟩

/-! ## C10 — isAuthenticated is memory-token AND sync-readable user -/

/-- C10: `isAuthenticated()` returns true exactly when the in-memory access
token is present (truthy) and a user object is synchronously readable from
the cache/cookie layers; immediately after a page reload it returns false
even though a persisted session object exists, until a refresh reinstalls
a token. -/
theorem isAuthenticated_token_and_user (st : AuthState) :
    (isAuthenticated st = true ↔
      ((jsVal st.accessToken).isSome = true ∧ (getCurrentUserSync st).isSome = true)) ∧
    (∀ u, getCurrentUserSync st = some u → isAuthenticated (pageReload st) = false) := by
  constructor
  · simp [isAuthenticated]
  · intro u _
    simp [isAuthenticated, pageReload, jsVal]

/-- Witness for C10 at a concrete state: a persisted session exists but a
reload leaves the service unauthenticated. -/
theorem isAuthenticated_token_and_user_witness :
    isAuthenticated (pageReload stEx) = false :=
  (isAuthenticated_token_and_user stEx).2 uEx (by decide)

/-! ## C6 — mode resolution: API key vs credits -/

/-- C6 counterexample: with a stored literal API key `"AIzaSy123"` and an
active signed-in session (the state in which the user's effective
preference is credits), `handleGenerateClick` dispatches client-side
API-key generation, not credits generation, and the gemini layer
classifies any options carrying an API key as client mode — the key, not
the preference, wins, refuting the claim. -/
theorem apiKey_beats_credits_counterexample :
    handleGenerateClick (some "photo.png") "AIzaSy123" (some uEx)
        = GenerateAction.clientMode "AIzaSy123" ∧
    ¬ handleGenerateClick (some "photo.png") "AIzaSy123" (some uEx)
        = GenerateAction.creditsMode ∧
    isClientMode { apiKey := some "AIzaSy123", useCredits := true } = true := by
  refine ⟨rfl, by decide, rfl⟩

/-- C6 amended: there is no persisted mode-preference flag; a stored
(non-empty) API key always wins: generation runs in API-key client mode
regardless of the session; credits mode is chosen only when no key is
stored and a user is signed in; with neither, the API-key modal is shown.
`isClientMode` is exactly API-key presence. -/
theorem mode_resolution_priority (img key : String) (user : Option GoogleUser)
    (himg : ¬ img = "") (hkey : ¬ key = "") :
    handleGenerateClick (some img) key user = GenerateAction.clientMode key ∧
    (∀ u : GoogleUser, handleGenerateClick (some img) "" (some u)
        = GenerateAction.creditsMode) ∧
    handleGenerateClick (some img) "" none = GenerateAction.showModal ∧
    (∀ o : GeminiOptions, isClientMode o = (jsVal o.apiKey).isSome) := by
  refine ⟨?_, ?_, ?_, fun o => rfl⟩ <;>
    simp [handleGenerateClick, jsVal, himg, hkey]

/-- Witness for C6's amended theorem at a concrete input. -/
theorem mode_resolution_priority_witness :
    handleGenerateClick (some "i.png") "k" none = GenerateAction.clientMode "k" :=
  (mode_resolution_priority "i.png" "k" none (by decide) (by decide)).1

/-! ## C7 — storage redundancy repair -/

theorem getFromStorages_none (s : Storage) (k : String)
    (h : (getFromStorages s k).1 = none) :
    svTruthy (lookupA s.cache k) = none ∧
    svTruthy (lookupA s.cookie k) = none ∧
    svTruthy (lookupA s.idb k) = none := by
  unfold getFromStorages at h
  cases e1 : svTruthy (lookupA s.cache k) with
  | some v => rw [e1] at h; simp at h
  | none =>
    rw [e1] at h
    cases e2 : svTruthy (lookupA s.cookie k) with
    | some v => rw [e2] at h; simp at h
    | none =>
      rw [e2] at h
      cases e3 : svTruthy (lookupA s.idb k) with
      | some v => rw [e3] at h; simp at h
      | none => exact ⟨rfl, rfl, rfl⟩

/-- C7: if a (truthy) value exists only in the transactional store (cache
and cookie do not hold the key), `get()` returns that value and repairs
the higher-priority layers, so a subsequent `getSync()` (cache/cookie
only) also returns it; and `get()` returns null only when no layer holds a
truthy value for the key. -/
theorem storage_redundancy_repair (st : Storage) (key : String) (v : SVal)
    (h1 : lookupA st.cache key = none) (h2 : lookupA st.cookie key = none)
    (h3 : lookupA st.idb key = some v) (hv : svTruthy (some v) = some v) :
    (getFromStorages st key).1 = some v ∧
    multiGetSync (getFromStorages st key).2 key = some v ∧
    (∀ s2 k2, (getFromStorages s2 k2).1 = none →
      svTruthy (lookupA s2.cache k2) = none ∧
      svTruthy (lookupA s2.cookie k2) = none ∧
      svTruthy (lookupA s2.idb k2) = none) := by
  have svn : svTruthy (none : Option SVal) = none := rfl
  have hrun : getFromStorages st key =
      (some v, { st with cache := insertA st.cache key v
                         cookie := insertA st.cookie key v }) := by
    unfold getFromStorages
    rw [h1, h2, h3, hv]
    simp only [svn]
  refine ⟨by rw [hrun], ?_, fun s2 k2 h => getFromStorages_none s2 k2 h⟩
  rw [hrun]
  simp [multiGetSync, lookupA_insertA_self, hv]

/-- A storage state holding a device id only in the transactional store. -/
def idbOnlyStorage : Storage :=
  { cache := [], cookie := []
    idb := [("animateimage_userid", SVal.str "dev-1")] }

/-- Witness for C7 at a concrete state: a device id living only in
IndexedDB is returned by `get()` and afterwards visible to `getSync()`. -/
theorem storage_redundancy_repair_witness :
    (getFromStorages idbOnlyStorage "animateimage_userid").1
      = some (SVal.str "dev-1") ∧
    multiGetSync (getFromStorages idbOnlyStorage "animateimage_userid").2
      "animateimage_userid" = some (SVal.str "dev-1") := by
  have h := storage_redundancy_repair idbOnlyStorage "animateimage_userid"
    (SVal.str "dev-1") (by decide) (by decide) (by decide) (by decide)
  exact ⟨h.1, h.2.1⟩

/-! ## C2 — refreshToken success/failure behaviour -/

/-- C2 counterexample: at a concrete signed-in state, a network error on
the `/auth/refresh` fetch makes `refreshToken()` return `false` while
performing NO sign-out: the session is still readable, the in-memory
token is still installed, and no subscriber was notified — contradicting
"on any failure (network error, …) it performs a full sign-out". -/
theorem refreshToken_netError_counterexample :
    (refreshToken RefreshOutcome.netError stEx).1 = false ∧
    getCurrentUserSync (refreshToken RefreshOutcome.netError stEx).2 = some uEx ∧
    (refreshToken RefreshOutcome.netError stEx).2.accessToken = some "tok0" ∧
    (refreshToken RefreshOutcome.netError stEx).2.notifications = [] := by
  refine ⟨rfl, by decide, rfl, rfl⟩

/-- C2 amended: `refreshToken()` installs the new token in memory and
returns true exactly on a 2xx response whose body has truthy `success`
and `access_token`; on a non-2xx response it performs a full sign-out
(token cleared, session key removed everywhere, subscribers notified with
null) and returns false; but on a network error, or on a 2xx body without
`success`/`access_token`, it returns false WITHOUT signing out, leaving
token, session and subscribers untouched. -/
theorem refreshToken_cases (st : AuthState) :
    (refreshToken RefreshOutcome.netError st
      = (false, { st with trace := st.trace ++ [NetCall.authRefresh] })) ∧
    (∀ success tok, refreshToken (RefreshOutcome.resp false success tok) st
      = (false, signOut { st with trace := st.trace ++ [NetCall.authRefresh] })) ∧
    (∀ t, ¬ t = "" → refreshToken (RefreshOutcome.resp true true (some t)) st
      = (true, { st with trace := st.trace ++ [NetCall.authRefresh]
                         accessToken := some t })) ∧
    (∀ t, ¬ t = "" → refreshToken (RefreshOutcome.resp true false (some t)) st
      = (false, { st with trace := st.trace ++ [NetCall.authRefresh] })) ∧
    (∀ success, refreshToken (RefreshOutcome.resp true success none) st
      = (false, { st with trace := st.trace ++ [NetCall.authRefresh] })) ∧
    (∀ success, refreshToken (RefreshOutcome.resp true success (some "")) st
      = (false, { st with trace := st.trace ++ [NetCall.authRefresh] })) ∧
    ((signOut { st with trace := st.trace ++ [NetCall.authRefresh] }).accessToken = none ∧
     (signOut { st with trace := st.trace ++ [NetCall.authRefresh] }).notifications
        = st.notifications ++ [none]) := by
  refine ⟨rfl, fun success tok => ?_, fun t ht => ?_, fun t ht => ?_,
    fun success => ?_, fun success => ?_, ?_⟩
  · simp [refreshToken, refreshRest]
  · simp [refreshToken, refreshRest, jsVal, ht]
  · simp [refreshToken, refreshRest, jsVal, ht]
  · simp [refreshToken, refreshRest, jsVal]
  · simp [refreshToken, refreshRest, jsVal]
  · obtain ⟨h1, _, _, h4⟩ := signOut_fields { st with trace := st.trace ++ [NetCall.authRefresh] }
    exact ⟨h1, h4⟩

/-- Witness for C2's amended theorem: a successful refresh at the concrete
signed-in state installs the new token and returns true. -/
theorem refreshToken_cases_witness :
    refreshToken (RefreshOutcome.resp true true (some "tok1")) stEx
      = (true, { stEx with trace := [NetCall.authRefresh], accessToken := some "tok1" }) :=
  (refreshToken_cases stEx).2.2.1 "tok1" (by decide)

/-! ## C8 — idempotent device-id creation -/

theorem generateUserId_length (bytes : Fin 20 → Nat) :
    (generateUserId bytes).length = 20 := by
  simp [generateUserId, String.length]

theorem generateUserId_ne_empty (bytes : Fin 20 → Nat) :
    ¬ generateUserId bytes = "" := by
  intro h
  have h20 := generateUserId_length bytes
  rw [h] at h20
  simp at h20

/-- Case analysis of `getOrCreateUserId`: cached id wins; else the
IndexedDB id; else the cookie id (restored to IndexedDB); else a freshly
generated id persisted everywhere. -/
theorem getOrCreateUserId_cases (bytes : Fin 20 → Nat) (st : UserIdState) :
    (∃ c, jsVal st.cachedUserId = some c ∧ getOrCreateUserId bytes st = (c, st)) ∨
    (jsVal st.cachedUserId = none ∧ ∃ v, jsVal st.idb = some v ∧
       getOrCreateUserId bytes st
         = (v, { st with cookie := some v, cachedUserId := some v })) ∨
    (jsVal st.cachedUserId = none ∧ jsVal st.idb = none ∧ ∃ v, jsVal st.cookie = some v ∧
       getOrCreateUserId bytes st
         = (v, { cachedUserId := some v, idb := some v, cookie := some v })) ∨
    (jsVal st.cachedUserId = none ∧ jsVal st.idb = none ∧ jsVal st.cookie = none ∧
       getOrCreateUserId bytes st
         = (generateUserId bytes,
            { cachedUserId := some (generateUserId bytes)
              idb := some (generateUserId bytes)
              cookie := some (generateUserId bytes) })) := by
  cases e1 : jsVal st.cachedUserId with
  | some c => exact Or.inl ⟨c, rfl, by simp [getOrCreateUserId, e1]⟩
  | none =>
    cases e2 : jsVal st.idb with
    | some v =>
      refine Or.inr (Or.inl ⟨rfl, v, rfl, ?_⟩)
      simp [getOrCreateUserId, e1, e2]
    | none =>
      cases e3 : jsVal st.cookie with
      | some v =>
        refine Or.inr (Or.inr (Or.inl ⟨rfl, rfl, v, rfl, ?_⟩))
        simp [getOrCreateUserId, e1, e2, e3]
      | none =>
        refine Or.inr (Or.inr (Or.inr ⟨rfl, rfl, rfl, ?_⟩))
        simp [getOrCreateUserId, e1, e2, e3]

/-- C8: `getOrCreateUserId()` is idempotent — a second call (immediately,
or after a full page reload with storage intact) returns the same id; a
fresh id (always 20 characters) is synthesized only when the id is absent
from the in-process cache, IndexedDB, and the cookie.  The hypothesis
`hconsist` formalises "storage intact": whenever an id is cached in the
process, the persistent layers hold the same id (an invariant every write
path of the service establishes). -/
theorem getOrCreateUserId_idempotent (bytes bytes2 : Fin 20 → Nat) (st : UserIdState)
    (hconsist : ∀ c, jsVal st.cachedUserId = some c →
       jsVal st.idb = some c ∧ jsVal st.cookie = some c) :
    ((getOrCreateUserId bytes2 (getOrCreateUserId bytes st).2).1
       = (getOrCreateUserId bytes st).1) ∧
    ((getOrCreateUserId bytes2 (UserIdState.reload (getOrCreateUserId bytes st).2)).1
       = (getOrCreateUserId bytes st).1) ∧
    (jsVal st.cachedUserId = none → jsVal st.idb = none → jsVal st.cookie = none →
       (getOrCreateUserId bytes st).1 = generateUserId bytes ∧
       ((getOrCreateUserId bytes st).1).length = 20) ∧
    (∀ c, jsVal st.cachedUserId = some c → (getOrCreateUserId bytes st).1 = c) ∧
    (jsVal st.cachedUserId = none →
       ∀ v, jsVal st.idb = some v → (getOrCreateUserId bytes st).1 = v) ∧
    (jsVal st.cachedUserId = none → jsVal st.idb = none →
       ∀ v, jsVal st.cookie = some v → (getOrCreateUserId bytes st).1 = v) := by
  rcases getOrCreateUserId_cases bytes st with
    ⟨c, hc, hrun⟩ | ⟨hc, v, hv, hrun⟩ | ⟨hc, hi, v, hv, hrun⟩ | ⟨hc, hi, hk, hrun⟩
  · obtain ⟨hcc, hcne⟩ := jsVal_eq_some hc
    refine ⟨?_, ?_, ?_, ?_, ?_, ?_⟩
    · rw [hrun]
      simp [getOrCreateUserId, hc]
    · rw [hrun]
      obtain ⟨hidb, _⟩ := hconsist c hc
      obtain ⟨hidb2, _⟩ := jsVal_eq_some hidb
      simp [getOrCreateUserId, UserIdState.reload, jsVal, hidb2, hcne]
    · intro h1 _ _
      rw [hc] at h1
      exact absurd h1 (by simp)
    · intro c2 hc2
      rw [hc] at hc2
      rw [hrun]
      exact (Option.some.injEq _ _ ▸ hc2 : c = c2) ▸ rfl
    · intro h1
      rw [hc] at h1
      exact absurd h1 (by simp)
    · intro h1
      rw [hc] at h1
      exact absurd h1 (by simp)
  · obtain ⟨hvv, hvne⟩ := jsVal_eq_some hv
    refine ⟨?_, ?_, ?_, ?_, ?_, ?_⟩
    · rw [hrun]
      simp [getOrCreateUserId, jsVal_some v hvne]
    · rw [hrun]
      simp [getOrCreateUserId, UserIdState.reload, jsVal, hvv, hvne]
    · intro _ h2 _
      rw [hv] at h2
      exact absurd h2 (by simp)
    · intro c2 hc2
      rw [hc] at hc2
      exact absurd hc2 (by simp)
    · intro _ v2 hv2
      rw [hv] at hv2
      rw [hrun]
      exact (Option.some.injEq _ _ ▸ hv2 : v = v2) ▸ rfl
    · intro _ h2
      rw [hv] at h2
      exact absurd h2 (by simp)
  · obtain ⟨hvv, hvne⟩ := jsVal_eq_some hv
    refine ⟨?_, ?_, ?_, ?_, ?_, ?_⟩
    · rw [hrun]
      simp [getOrCreateUserId, jsVal_some v hvne]
    · rw [hrun]
      simp [getOrCreateUserId, UserIdState.reload, jsVal, hvne]
    · intro _ _ h3
      rw [hv] at h3
      exact absurd h3 (by simp)
    · intro c2 hc2
      rw [hc] at hc2
      exact absurd hc2 (by simp)
    · intro _ v2 hv2
      rw [hi] at hv2
      exact absurd hv2 (by simp)
    · intro _ _ v2 hv2
      rw [hv] at hv2
      rw [hrun]
      exact (Option.some.injEq _ _ ▸ hv2 : v = v2) ▸ rfl
  · have hne := generateUserId_ne_empty bytes
    refine ⟨?_, ?_, ?_, ?_, ?_, ?_⟩
    · rw [hrun]
      simp [getOrCreateUserId, jsVal_some _ hne]
    · rw [hrun]
      simp [getOrCreateUserId, UserIdState.reload, jsVal, hne]
    · intro _ _ _
      rw [hrun]
      exact ⟨rfl, generateUserId_length bytes⟩
    · intro c2 hc2
      rw [hc] at hc2
      exact absurd hc2 (by simp)
    · intro _ v2 hv2
      rw [hi] at hv2
      exact absurd hv2 (by simp)
    · intro _ _ v2 hv2
      rw [hk] at hv2
      exact absurd hv2 (by simp)

/-- Witness for C8 at the empty state with a concrete byte source: the
first call generates a 20-character id and a reloaded second call returns
the same id. -/
theorem getOrCreateUserId_idempotent_witness :
    ((getOrCreateUserId (fun i => i.val) (UserIdState.reload
        (getOrCreateUserId (fun i => i.val)
          { cachedUserId := none, idb := none, cookie := none }).2)).1
      = (getOrCreateUserId (fun i => i.val)
          { cachedUserId := none, idb := none, cookie := none }).1) ∧
    ((getOrCreateUserId (fun i => i.val)
        { cachedUserId := none, idb := none, cookie := none }).1).length = 20 := by
  have h := getOrCreateUserId_idempotent (fun i => i.val) (fun i => i.val)
    { cachedUserId := none, idb := none, cookie := none }
    (fun c hc => by simp [jsVal] at hc)
  exact ⟨h.2.1, (h.2.2.1 rfl rfl rfl).2⟩

/-! ## C3 — authenticatedFetch retry-on-401 -/

/-- C3: for `authenticatedFetch(url, options)`: a 401 while a token was
attached triggers `refresh()`; on refresh success the request is retried
exactly once with the new token (the trace gains exactly the original
request, one refresh, and one retry carrying the new bearer token) and the
retry's response is returned; on refresh failure the original 401 response
is returned and the state is signed out; a 401 with no token present
triggers no refresh. -/
theorem authenticatedFetch_401_behaviour (st : AuthState) (url b1 t : String)
    (h : st.accessToken = some t) (ht : ¬ t = "") :
    (∀ tn r2s r2b, ¬ tn = "" →
       authenticatedFetch url (FetchOutcome.resp 401 b1)
           (RefreshOutcome.resp true true (some tn)) (FetchOutcome.resp r2s r2b) st
         = (TaskPhase.doneOk (r2s, r2b),
            { st with accessToken := some tn
                      trace := st.trace ++ [NetCall.apiRequest url (some t),
                        NetCall.authRefresh, NetCall.apiRequest url (some tn)] })) ∧
    (∀ success tok r2,
       (authenticatedFetch url (FetchOutcome.resp 401 b1)
           (RefreshOutcome.resp false success tok) r2 st).1
         = TaskPhase.doneOk (401, b1) ∧
       (authenticatedFetch url (FetchOutcome.resp 401 b1)
           (RefreshOutcome.resp false success tok) r2 st).2.accessToken = none) ∧
    (∀ r2,
       (authenticatedFetch url (FetchOutcome.resp 401 b1)
           RefreshOutcome.netError r2 st).1 = TaskPhase.doneOk (401, b1) ∧
       (authenticatedFetch url (FetchOutcome.resp 401 b1)
           RefreshOutcome.netError r2 st).2.accessToken = none) ∧
    (∀ s2 : AuthState, ∀ ref r2, jsVal s2.accessToken = none →
       authenticatedFetch url (FetchOutcome.resp 401 b1) ref r2 s2
         = (TaskPhase.doneOk (401, b1),
            { s2 with trace := s2.trace ++ [NetCall.apiRequest url none] })) := by
  have hjs : jsVal st.accessToken = some t := by rw [h]; exact jsVal_some t ht
  refine ⟨fun tn r2s r2b htn => ?_, fun success tok r2 => ?_, fun r2 => ?_,
    fun s2 ref r2 hs2 => ?_⟩
  · simp [authenticatedFetch, taskStart, taskDeliverFirst, taskDeliverRefresh,
      taskDeliverRetry, refreshRest, jsVal, h, ht, htn, List.append_assoc]
  · constructor <;>
    · simp [authenticatedFetch, taskStart, taskDeliverFirst, taskDeliverRefresh,
        refreshRest, jsVal, h, ht, (signOut_fields _).1]
  · constructor <;>
    · simp [authenticatedFetch, taskStart, taskDeliverFirst, taskDeliverRefresh,
        refreshRest, jsVal, h, ht, (signOut_fields _).1]
  · simp [authenticatedFetch, taskStart, taskDeliverFirst, hs2]

/-- Witness for C3: at the concrete signed-in state, a 401 followed by a
successful refresh yields the retry's 200 response with the new token. -/
theorem authenticatedFetch_401_behaviour_witness :
    authenticatedFetch "https://api.example.com/job" (FetchOutcome.resp 401 "expired")
        (RefreshOutcome.resp true true (some "tok1")) (FetchOutcome.resp 200 "done") stEx
      = (TaskPhase.doneOk (200, "done"),
         { stEx with accessToken := some "tok1"
                     trace := [NetCall.apiRequest "https://api.example.com/job" (some "tok0"),
                       NetCall.authRefresh,
                       NetCall.apiRequest "https://api.example.com/job" (some "tok1")] }) :=
  (authenticatedFetch_401_behaviour stEx "https://api.example.com/job" "expired" "tok0"
      rfl (by decide)).1 "tok1" 200 "done" (by decide)

/-! ## C1 — no single-flight collapsing of concurrent refreshes -/

theorem countRefresh_append (l1 l2 : List NetCall) :
    countRefresh (l1 ++ l2) = countRefresh l1 + countRefresh l2 := by
  simp [countRefresh, List.countP_append]

theorem startTasks_spec (n : Nat) (url : String) (st : AuthState) :
    (startTasks n url st).1
      = List.replicate n (TaskPhase.awaitingFirst url (jsVal st.accessToken)) ∧
    (startTasks n url st).2.accessToken = st.accessToken ∧
    countRefresh (startTasks n url st).2.trace = countRefresh st.trace := by
  induction n generalizing st with
  | zero => simp [startTasks]
  | succ m ih =>
    obtain ⟨ih1, ih2, ih3⟩ := ih (taskStart url st).2
    have ha : (taskStart url st).2.accessToken = st.accessToken := by simp [taskStart]
    have hc : countRefresh (taskStart url st).2.trace = countRefresh st.trace := by
      simp [taskStart, countRefresh_append, countRefresh]
    refine ⟨?_, ?_, ?_⟩
    · simp only [startTasks]
      rw [ih1, ha]
      simp [taskStart, List.replicate]
    · simp only [startTasks]
      rw [ih2, ha]
    · simp only [startTasks]
      rw [ih3, hc]

theorem deliverFirstAll_401_spec (url body t : String)
    (phs : List TaskPhase) (st : AuthState)
    (hphs : ∀ ph ∈ phs, ph = TaskPhase.awaitingFirst url (some t)) :
    countRefresh (deliverFirstAll (FetchOutcome.resp 401 body) phs st).2.trace
      = countRefresh st.trace + phs.length ∧
    (deliverFirstAll (FetchOutcome.resp 401 body) phs st).2.accessToken
      = st.accessToken := by
  induction phs generalizing st with
  | nil => simp [deliverFirstAll]
  | cons ph rest ih =>
    have hph : ph = TaskPhase.awaitingFirst url (some t) := hphs ph (by simp)
    have hrest : ∀ p ∈ rest, p = TaskPhase.awaitingFirst url (some t) :=
      fun p hp => hphs p (by simp [hp])
    have hstep : taskDeliverFirst (FetchOutcome.resp 401 body) ph st
        = (TaskPhase.awaitingRefresh url (some t) (401, body),
           { st with trace := st.trace ++ [NetCall.authRefresh] }) := by
      rw [hph]
      simp [taskDeliverFirst]
    obtain ⟨ih1, ih2⟩ := ih { st with trace := st.trace ++ [NetCall.authRefresh] } hrest
    refine ⟨?_, ?_⟩
    · simp only [deliverFirstAll, hstep]
      rw [ih1]
      simp [countRefresh_append, countRefresh]
      omega
    · simp only [deliverFirstAll, hstep]
      rw [ih2]

/-- C1 counterexample: two concurrent `authenticatedFetch` callers, both
holding the in-memory token, both receive a 401; the event-loop run in
which each caller resumes and enters `refreshToken()` issues TWO network
calls to `/auth/refresh` (there is no pending-promise guard in the
source), not the single call the claim asserts — although both original
requests do succeed after their (separate) refreshes resolve. -/
def runTwo : List TaskPhase × AuthState :=
  let s := startTasks 2 "https://api.example.com/gemini/edit" stEx
  let d := deliverFirstAll (FetchOutcome.resp 401 "token expired") s.1 s.2
  match d with
  | ([p1, p2], st) =>
    let q1 := taskDeliverRefresh (RefreshOutcome.resp true true (some "newTok1")) p1 st
    let q2 := taskDeliverRefresh (RefreshOutcome.resp true true (some "newTok2")) p2 q1.2
    let z1 := taskDeliverRetry (FetchOutcome.resp 200 "ok1") q1.1 q2.2
    let z2 := taskDeliverRetry (FetchOutcome.resp 200 "ok2") q2.1 z1.2
    ([z1.1, z2.1], z2.2)
  | other => other

/-- C1 counterexample theorem: the two-caller run issues exactly two
`/auth/refresh` calls (not one), while both callers complete with their
retry's 200 response. -/
theorem refresh_two_callers_two_calls :
    countRefresh runTwo.2.trace = 2 ∧
    ¬ countRefresh runTwo.2.trace = 1 ∧
    runTwo.1 = [TaskPhase.doneOk (200, "ok1"), TaskPhase.doneOk (200, "ok2")] := by
  refine ⟨by decide, by decide, by decide⟩

/-- C1 amended: there is no single-flight collapsing — every one of the
`n` concurrent `authenticatedFetch` callers that observes a 401 while the
token was attached enters `refreshToken()` and issues its own network
call to `/auth/refresh`, so the trace gains exactly `n` refresh calls
(for `n ≥ 2`, more than the one call the specification demands). -/
theorem refresh_not_single_flight (n : Nat) (url body t : String) (st : AuthState)
    (h : st.accessToken = some t) (ht : ¬ t = "") :
    countRefresh (deliverFirstAll (FetchOutcome.resp 401 body)
        (startTasks n url st).1 (startTasks n url st).2).2.trace
      = countRefresh st.trace + n := by
  obtain ⟨hs1, hs2, hs3⟩ := startTasks_spec n url st
  have hjs : jsVal st.accessToken = some t := by rw [h]; exact jsVal_some t ht
  have hphs : ∀ ph ∈ (startTasks n url st).1,
      ph = TaskPhase.awaitingFirst url (some t) := by
    intro ph hph
    rw [hs1, hjs] at hph
    exact List.eq_of_mem_replicate hph
  obtain ⟨hd1, _⟩ := deliverFirstAll_401_spec url body t
    (startTasks n url st).1 (startTasks n url st).2 hphs
  rw [hd1, hs3, hs1]
  simp

/-- Witness for C1's amended theorem: five concurrent callers at the
concrete signed-in state produce five `/auth/refresh` calls. -/
theorem refresh_not_single_flight_witness :
    countRefresh (deliverFirstAll (FetchOutcome.resp 401 "expired")
        (startTasks 5 "https://api.example.com/job" stEx).1
        (startTasks 5 "https://api.example.com/job" stEx).2).2.trace
      = countRefresh stEx.trace + 5 :=
  refresh_not_single_flight 5 "https://api.example.com/job" "expired" "tok0" stEx
    rfl (by decide)

/-! ## C4 — access token and persistent storage -/

/-- Whether a stored value is the JSON of a user object (which carries no
token field) rather than a raw string. -/
def isUserJson : SVal → Bool
  | SVal.userJson _ _ _ _ _ _ => true
  | SVal.str _ => false

/-- Every value in every persistent layer is a (token-free) user JSON — in
particular no bearer token string is held in persistent storage. -/
def onlyUserJson (s : Storage) : Bool :=
  s.cache.all (fun p => isUserJson p.2) &&
  s.cookie.all (fun p => isUserJson p.2) &&
  s.idb.all (fun p => isUserJson p.2)

theorem all_of_filter (p q : String × SVal → Bool) (l : List (String × SVal))
    (h : l.all p = true) : (l.filter q).all p = true := by
  induction l with
  | nil => simp
  | cons a t ih =>
    rw [List.all_cons, Bool.and_eq_true] at h
    by_cases hq : q a = true
    · rw [List.filter_cons_of_pos hq, List.all_cons, Bool.and_eq_true]
      exact ⟨h.1, ih h.2⟩
    · rw [List.filter_cons_of_neg hq]
      exact ih h.2

theorem onlyUserJson_multiSet (s : Storage) (k : String) (u : GoogleUser)
    (h : onlyUserJson s = true) :
    onlyUserJson (multiSet s k (stringifyUser u)) = true := by
  rw [onlyUserJson, Bool.and_eq_true, Bool.and_eq_true] at h
  obtain ⟨⟨h1, h2⟩, h3⟩ := h
  simp only [onlyUserJson, multiSet, insertA, Bool.and_eq_true, List.all_cons]
  refine ⟨⟨⟨rfl, all_of_filter _ _ _ h1⟩, rfl, all_of_filter _ _ _ h2⟩,
    rfl, all_of_filter _ _ _ h3⟩

theorem onlyUserJson_multiRemove (s : Storage) (k : String)
    (h : onlyUserJson s = true) :
    onlyUserJson (multiRemove s k) = true := by
  rw [onlyUserJson, Bool.and_eq_true, Bool.and_eq_true] at h
  obtain ⟨⟨h1, h2⟩, h3⟩ := h
  simp only [onlyUserJson, multiRemove, eraseA, Bool.and_eq_true]
  exact ⟨⟨all_of_filter _ _ _ h1, all_of_filter _ _ _ h2⟩, all_of_filter _ _ _ h3⟩

theorem onlyUserJson_signOut (st : AuthState) (h : onlyUserJson st.storage = true) :
    onlyUserJson (signOut st).storage = true := by
  rw [(signOut_fields st).2.1]
  exact onlyUserJson_multiRemove _ _ h

theorem onlyUserJson_refreshRest (r : RefreshOutcome) (st : AuthState)
    (h : onlyUserJson st.storage = true) :
    onlyUserJson (refreshRest r st).2.storage = true := by
  cases r with
  | netError => exact h
  | resp ok success tok =>
    by_cases hok : ok = true
    · cases htok : jsVal tok with
      | none => simpa [refreshRest, hok, htok] using h
      | some t =>
        by_cases hs : success = true <;> simpa [refreshRest, hok, htok, hs] using h
    · have hok2 : ok = false := by
        cases ok
        · rfl
        · exact absurd rfl hok
      subst hok2
      simpa [refreshRest] using onlyUserJson_signOut st h

theorem onlyUserJson_refreshToken (r : RefreshOutcome) (st : AuthState)
    (h : onlyUserJson st.storage = true) :
    onlyUserJson (refreshToken r st).2.storage = true := by
  rw [refreshToken]
  exact onlyUserJson_refreshRest r _ h

theorem onlyUserJson_fetchUserInfo (m : MeOutcome) (st : AuthState)
    (h : onlyUserJson st.storage = true) :
    onlyUserJson (fetchUserInfo m st).2.storage = true := by
  cases htok : jsVal st.accessToken with
  | none => simpa [fetchUserInfo, htok] using h
  | some t =>
    cases m with
    | netError => simpa [fetchUserInfo, htok] using h
    | resp status body =>
      by_cases hst : 200 ≤ status ∧ status < 300
      · cases body with
        | none => simpa [fetchUserInfo, htok, hst] using h
        | some d =>
          simp only [fetchUserInfo, htok, hst, if_pos]
          exact onlyUserJson_multiSet _ _ _ h
      · by_cases h401 : status = 401
        · simp only [fetchUserInfo, htok, hst, if_neg, if_pos, h401]
          cases body <;>
            simpa [fetchUserInfo, htok, hst, h401] using
              onlyUserJson_signOut { st with trace := st.trace ++ [NetCall.authMe] } h
        · cases body <;> simpa [fetchUserInfo, htok, hst, h401] using h

theorem onlyUserJson_initAuthRestore (r : RefreshOutcome) (m2 : MeOutcome)
    (st : AuthState) (h : onlyUserJson st.storage = true) :
    onlyUserJson (initAuthRestore r m2 st).2.storage = true := by
  rw [initAuthRestore]
  cases hcu : getCurrentUserSync st with
  | none => exact h
  | some u =>
    cases hrt : refreshToken r st with
    | mk refreshed st2 =>
      have h2 : onlyUserJson st2.storage = true := by
        have hx := onlyUserJson_refreshToken r st h
        rw [hrt] at hx
        exact hx
      cases refreshed with
      | false => exact h2
      | true =>
        cases hfu : fetchUserInfo m2 st2 with
        | mk res st3 =>
          have h3 : onlyUserJson st3.storage = true := by
            have hx := onlyUserJson_fetchUserInfo m2 st2 h2
            rw [hfu] at hx
            exact hx
          cases res <;> simpa [hfu] using h3

theorem onlyUserJson_initAuth (m1 : MeOutcome) (r : RefreshOutcome) (m2 : MeOutcome)
    (st : AuthState) (h : onlyUserJson st.storage = true) :
    onlyUserJson (initAuth m1 r m2 st).2.storage = true := by
  rw [initAuth]
  cases htok : jsVal st.accessToken with
  | none => exact onlyUserJson_initAuthRestore r m2 st h
  | some t =>
    simp only
    cases hfu1 : fetchUserInfo m1 st with
    | mk res1 st1 =>
      have h1 : onlyUserJson st1.storage = true := by
        have hx := onlyUserJson_fetchUserInfo m1 st h
        rw [hfu1] at hx
        exact hx
      cases res1 with
      | some u => exact h1
      | none => exact onlyUserJson_initAuthRestore r m2 st1 h1

theorem taskDeliverFirst_storage (o : FetchOutcome) (ph : TaskPhase) (s : AuthState) :
    (taskDeliverFirst o ph s).2.storage = s.storage := by
  cases ph <;> cases o <;>
    first
    | rfl
    | (simp only [taskDeliverFirst]; split <;> rfl)

theorem taskDeliverRetry_storage (o : FetchOutcome) (ph : TaskPhase) (s : AuthState) :
    (taskDeliverRetry o ph s).2.storage = s.storage := by
  cases ph <;> cases o <;> rfl

theorem onlyUserJson_taskDeliverRefresh (r : RefreshOutcome) (ph : TaskPhase)
    (s : AuthState) (h : onlyUserJson s.storage = true) :
    onlyUserJson (taskDeliverRefresh r ph s).2.storage = true := by
  cases ph with
  | awaitingRefresh u tk orig =>
    cases hrr : refreshRest r s with
    | mk refreshed s2 =>
      have h2 : onlyUserJson s2.storage = true := by
        have hx := onlyUserJson_refreshRest r s h
        rw [hrr] at hx
        exact hx
      cases refreshed with
      | true => simpa [taskDeliverRefresh, hrr] using h2
      | false => simpa [taskDeliverRefresh, hrr] using onlyUserJson_signOut s2 h2
  | awaitingFirst u tk => exact h
  | awaitingRetry u => exact h
  | doneOk resp => exact h
  | doneErr => exact h

theorem onlyUserJson_authenticatedFetch (url : String) (r1 : FetchOutcome)
    (r : RefreshOutcome) (r2 : FetchOutcome) (st : AuthState)
    (h : onlyUserJson st.storage = true) :
    onlyUserJson (authenticatedFetch url r1 r r2 st).2.storage = true := by
  have h1 : onlyUserJson
      (taskDeliverFirst r1 (taskStart url st).1 (taskStart url st).2).2.storage = true := by
    rw [taskDeliverFirst_storage]
    have hstart : (taskStart url st).2.storage = st.storage := by simp [taskStart]
    rw [hstart]
    exact h
  cases hph : (taskDeliverFirst r1 (taskStart url st).1 (taskStart url st).2).1 with
  | awaitingRefresh u tk orig =>
    have h3 := onlyUserJson_taskDeliverRefresh r (TaskPhase.awaitingRefresh u tk orig)
      (taskDeliverFirst r1 (taskStart url st).1 (taskStart url st).2).2 h1
    cases hph2 : (taskDeliverRefresh r (TaskPhase.awaitingRefresh u tk orig)
        (taskDeliverFirst r1 (taskStart url st).1 (taskStart url st).2).2).1 with
    | awaitingRetry u2 =>
      have h4 : onlyUserJson (taskDeliverRetry r2 (TaskPhase.awaitingRetry u2)
          (taskDeliverRefresh r (TaskPhase.awaitingRefresh u tk orig)
            (taskDeliverFirst r1 (taskStart url st).1 (taskStart url st).2).2).2).2.storage
          = true := by
        rw [taskDeliverRetry_storage]
        exact h3
      simpa [authenticatedFetch, hph, hph2] using h4
    | awaitingFirst u2 tk2 => simpa [authenticatedFetch, hph, hph2] using h3
    | awaitingRefresh u2 tk2 orig2 => simpa [authenticatedFetch, hph, hph2] using h3
    | doneOk resp => simpa [authenticatedFetch, hph, hph2] using h3
    | doneErr => simpa [authenticatedFetch, hph, hph2] using h3
  | awaitingFirst u tk => simpa [authenticatedFetch, hph] using h1
  | awaitingRetry u => simpa [authenticatedFetch, hph] using h1
  | doneOk resp => simpa [authenticatedFetch, hph] using h1
  | doneErr => simpa [authenticatedFetch, hph] using h1

theorem onlyUserJson_handleCredential (o : SignInOutcome) (st : AuthState)
    (h : onlyUserJson st.storage = true) :
    onlyUserJson (handleGoogleCredentialResponse o st).storage = true := by
  cases o with
  | failure => simpa [handleGoogleCredentialResponse] using h
  | success r =>
    by_cases hr : r.success = true
    · simp only [handleGoogleCredentialResponse, hr, if_pos]
      exact onlyUserJson_multiSet _ _ _ h
    · simpa [handleGoogleCredentialResponse, hr] using h

theorem onlyUserJson_updateUserCredits (n : Int) (st : AuthState)
    (h : onlyUserJson st.storage = true) :
    onlyUserJson (updateUserCredits n st).storage = true := by
  cases hcu : getCurrentUserSync st with
  | none => simpa [updateUserCredits, hcu] using h
  | some u =>
    simp only [updateUserCredits, hcu]
    exact onlyUserJson_multiSet _ _ _ h

/-- A concrete successful sign-in exchange body. -/
def signInEx : AuthApiResponse :=
  { success := true, access_token := "secret-bearer", user_id := "user-1"
    email := "user@example.com", credits := 5, is_new_user := true }

/-- C4 counterexample: the repository's legacy variant of the service
(`googleAuthService.ts` lines 351-377 / 363-369) violates the invariant at
sign-in: after a successful credential exchange the raw bearer token is
written into all three persistent storage layers (localStorage, cookie,
IndexedDB) under the `_access_token` key. -/
theorem token_persisted_by_legacy_signIn_counterexample :
    lookupA (handleGoogleCredentialResponseV1 (SignInOutcome.success signInEx)
        1000 "auth" Storage.empty).cache "auth_access_token"
      = some (SVal.str "secret-bearer") ∧
    lookupA (handleGoogleCredentialResponseV1 (SignInOutcome.success signInEx)
        1000 "auth" Storage.empty).cookie "auth_access_token"
      = some (SVal.str "secret-bearer") ∧
    lookupA (handleGoogleCredentialResponseV1 (SignInOutcome.success signInEx)
        1000 "auth" Storage.empty).idb "auth_access_token"
      = some (SVal.str "secret-bearer") := by
  refine ⟨by decide, by decide, by decide⟩

/-- C4 amended: in the CURRENT (memory-only) variant of the service the
invariant holds: every operation — sign-in exchange, refresh, sign-out,
credit update, user-info fetch, bootstrap, authenticated request — keeps
persistent storage free of the bearer token (each layer only ever holds
token-free user JSON), and after a page reload the in-memory token is
absent until a refresh reconstitutes it; the repository's legacy variant,
however, persists the token at sign-in (see the counterexample). -/
theorem token_memory_only_current_variant (st : AuthState)
    (h : onlyUserJson st.storage = true) :
    (∀ o, onlyUserJson (handleGoogleCredentialResponse o st).storage = true) ∧
    (∀ r, onlyUserJson (refreshToken r st).2.storage = true) ∧
    onlyUserJson (signOut st).storage = true ∧
    (∀ n, onlyUserJson (updateUserCredits n st).storage = true) ∧
    (∀ m, onlyUserJson (fetchUserInfo m st).2.storage = true) ∧
    (∀ m1 r m2, onlyUserJson (initAuth m1 r m2 st).2.storage = true) ∧
    (∀ url r1 r r2, onlyUserJson (authenticatedFetch url r1 r r2 st).2.storage = true) ∧
    getAccessToken (pageReload st) = none :=
  ⟨fun o => onlyUserJson_handleCredential o st h,
   fun r => onlyUserJson_refreshToken r st h,
   onlyUserJson_signOut st h,
   fun n => onlyUserJson_updateUserCredits n st h,
   fun m => onlyUserJson_fetchUserInfo m st h,
   fun m1 r m2 => onlyUserJson_initAuth m1 r m2 st h,
   fun url r1 r r2 => onlyUserJson_authenticatedFetch url r1 r r2 st h,
   rfl⟩

/-- Witness for C4's amended theorem at the concrete signed-in state. -/
theorem token_memory_only_current_variant_witness :
    onlyUserJson (signOut stEx).storage = true ∧
    getAccessToken (pageReload stEx) = none := by
  have h := token_memory_only_current_variant stEx (by decide)
  exact ⟨h.2.2.1, h.2.2.2.2.2.2.2⟩

end AnimateImage
